import Mathlib

/-!
Verification development for the passport-OCR pipeline
(`OCR_pass.py` and `app.py`).

The pipeline is embedded shallowly: pure Python string manipulation is
translated to Lean functions on `String`/`List Char`; the external
collaborators (filesystem, OpenCV image decoding, the PaddleOCR engine
and the LLM client) are oracles supplied through environment records;
fallible code is translated to `Except`/`Option` values.
-/

/-! ## Python string primitives used by the source -/

/-- Whitespace characters removed by the Python method `str.strip()`
(the ASCII subset, which is all the source ever feeds it). -/
def isPySpace (c : Char) : Bool :=
  c = ' ' || c = '\t' || c = '\n' || c = '\r' || c = '\x0b' || c = '\x0c'

/-- Strip leading and trailing whitespace from a character list. -/
def stripChars (l : List Char) : List Char :=
  ((l.dropWhile isPySpace).reverse.dropWhile isPySpace).reverse

/-- Python `s.strip()`. -/
def pyStrip (s : String) : String := ⟨stripChars s.data⟩

/-- Python `s.startswith(p)`. -/
def strStarts (p s : String) : Bool := p.data.isPrefixOf s.data

/-- Fuel-indexed worker for `removeOccs`: removes every non-overlapping
occurrence of the pattern `p :: ps`, scanning left to right, exactly as
Python `str.replace(pat, "")` does for a non-empty pattern. -/
def removeOccsAux (p : Char) (ps : List Char) : Nat → List Char → List Char
  | 0, s => s
  | _ + 1, [] => []
  | fuel + 1, c :: rest =>
    if (p :: ps).isPrefixOf (c :: rest) then
      removeOccsAux p ps fuel (rest.drop ps.length)
    else
      c :: removeOccsAux p ps fuel rest

/-- Python `s.replace(pat, "")` for a non-empty pattern `pat`
(the only form the source uses). -/
def removeOccs (pat s : String) : String :=
  match pat.data with
  | [] => s
  | p :: ps => ⟨removeOccsAux p ps s.data.length s.data⟩

/-! ## JSON values and a model of `json.loads`

The handler in `app.py` parses the post-processed LLM output with the
Python standard-library call `json.loads`.  `Json` is the value type and
`parseJson` models the parser on the strict-JSON fragment the claims
exercise (objects, arrays, strings with the simple escapes, numbers with
optional sign/fraction/exponent, `true`, `false`, `null`; the `\u`
escape and the leading-zero restriction are not modelled). -/

inductive Json where
  | null : Json
  | bool (b : Bool) : Json
  | num (q : ℚ) : Json
  | str (s : String) : Json
  | arr (elems : List Json) : Json
  | obj (fields : List (String × Json)) : Json

/-- Whether a JSON value is an object (a Python `dict`). -/
def Json.isObj : Json → Bool
  | .obj _ => true
  | _ => false

/-- JSON whitespace accepted between tokens by `json.loads`. -/
def isJsonWs (c : Char) : Bool :=
  c = ' ' || c = '\t' || c = '\n' || c = '\r'

/-- Skip JSON whitespace. -/
def skipWs (s : List Char) : List Char := s.dropWhile isJsonWs

/-- Value of a digit character. -/
def digitVal (c : Char) : Nat := c.toNat - 48

/-- Natural number denoted by a digit list. -/
def digitsToNat (ds : List Char) : Nat :=
  ds.foldl (fun n c => n * 10 + digitVal c) 0

/-- Parse the exponent part of a JSON number, scaling `q` accordingly. -/
def parseExpPart (q : ℚ) (r : List Char) : Option (ℚ × List Char) :=
  let signed : Int × List Char :=
    match r with
    | '+' :: t => (1, t)
    | '-' :: t => (-1, t)
    | _ => (1, r)
  let eds := signed.2.takeWhile Char.isDigit
  let r2 := signed.2.dropWhile Char.isDigit
  if eds.isEmpty then none
  else some (q * (10 : ℚ) ^ (signed.1 * (digitsToNat eds : Int)), r2)

/-- Parse a JSON number literal (optional minus, digits, optional
fraction, optional exponent). -/
def parseNumLit (s : List Char) : Option (ℚ × List Char) :=
  let sgn : Bool × List Char :=
    match s with
    | '-' :: r => (true, r)
    | _ => (false, s)
  let ds := sgn.2.takeWhile Char.isDigit
  let s2 := sgn.2.dropWhile Char.isDigit
  if ds.isEmpty then none
  else
    let base : ℚ := (digitsToNat ds : ℚ)
    let fracStep : Option (ℚ × List Char) :=
      match s2 with
      | '.' :: r =>
        let fds := r.takeWhile Char.isDigit
        let r2 := r.dropWhile Char.isDigit
        if fds.isEmpty then none
        else some (base + (digitsToNat fds : ℚ) / (10 : ℚ) ^ fds.length, r2)
      | _ => some (base, s2)
    match fracStep with
    | none => none
    | some (q, s3) =>
      let expStep : Option (ℚ × List Char) :=
        match s3 with
        | 'e' :: r => parseExpPart q r
        | 'E' :: r => parseExpPart q r
        | _ => some (q, s3)
      match expStep with
      | none => none
      | some (q2, s4) => some (if sgn.1 then -q2 else q2, s4)

/-- Parse the body of a JSON string literal (after the opening quote),
supporting the simple escape sequences. -/
def parseStrLit : Nat → List Char → List Char → Option (String × List Char)
  | 0, _, _ => none
  | _ + 1, _, [] => none
  | fuel + 1, acc, c :: rest =>
    if c = '"' then some (⟨acc.reverse⟩, rest)
    else if c = '\\' then
      match rest with
      | [] => none
      | e :: rest2 =>
        let dec : Option Char :=
          if e = '"' then some '"'
          else if e = '\\' then some '\\'
          else if e = '/' then some '/'
          else if e = 'b' then some '\x08'
          else if e = 'f' then some '\x0c'
          else if e = 'n' then some '\n'
          else if e = 'r' then some '\r'
          else if e = 't' then some '\t'
          else none
        match dec with
        | some d => parseStrLit fuel (d :: acc) rest2
        | none => none
    else parseStrLit fuel (c :: acc) rest

/-- Insert a key into the field list of an object under construction,
with Python `dict` semantics: an existing key keeps its position and is
overwritten, a new key is appended. -/
def insertKey (fields : List (String × Json)) (k : String) (v : Json) :
    List (String × Json) :=
  if fields.any (fun kv => kv.1 = k) then
    fields.map (fun kv => if kv.1 = k then (k, v) else kv)
  else fields ++ [(k, v)]

/-- Parser mode: a whole value, the continuation of an array after its
first element, or the continuation of an object. -/
inductive PMode where
  | val : PMode
  | arrRest (acc : List Json) : PMode
  | objMember (acc : List (String × Json)) : PMode
  | objRest (acc : List (String × Json)) : PMode

/-- One fuel-indexed recursive-descent step of the JSON parser. -/
def parseStep : Nat → PMode → List Char → Option (Json × List Char)
  | 0, _, _ => none
  | fuel + 1, PMode.val, s =>
    match skipWs s with
    | [] => none
    | c :: rest =>
      if c = 'n' then
        if ['u', 'l', 'l'].isPrefixOf rest then some (Json.null, rest.drop 3)
        else none
      else if c = 't' then
        if ['r', 'u', 'e'].isPrefixOf rest then some (Json.bool true, rest.drop 3)
        else none
      else if c = 'f' then
        if ['a', 'l', 's', 'e'].isPrefixOf rest then some (Json.bool false, rest.drop 4)
        else none
      else if c = '"' then
        match parseStrLit (rest.length + 1) [] rest with
        | some (str, r2) => some (Json.str str, r2)
        | none => none
      else if c = '[' then
        match skipWs rest with
        | ']' :: r2 => some (Json.arr [], r2)
        | r2 =>
          match parseStep fuel PMode.val r2 with
          | some (v, r3) => parseStep fuel (PMode.arrRest [v]) r3
          | none => none
      else if c = '\x7b' then
        match skipWs rest with
        | '\x7d' :: r2 => some (Json.obj [], r2)
        | r2 => parseStep fuel (PMode.objMember []) r2
      else
        match parseNumLit (c :: rest) with
        | some (q, r2) => some (Json.num q, r2)
        | none => none
  | fuel + 1, PMode.arrRest acc, s =>
    match skipWs s with
    | ']' :: r => some (Json.arr acc.reverse, r)
    | ',' :: r =>
      match parseStep fuel PMode.val r with
      | some (v, r2) => parseStep fuel (PMode.arrRest (v :: acc)) r2
      | none => none
    | _ => none
  | fuel + 1, PMode.objMember acc, s =>
    match skipWs s with
    | '"' :: rest =>
      match parseStrLit (rest.length + 1) [] rest with
      | some (k, r2) =>
        match skipWs r2 with
        | ':' :: r3 =>
          match parseStep fuel PMode.val r3 with
          | some (v, r4) => parseStep fuel (PMode.objRest (insertKey acc k v)) r4
          | none => none
        | _ => none
      | none => none
    | _ => none
  | fuel + 1, PMode.objRest acc, s =>
    match skipWs s with
    | '\x7d' :: r => some (Json.obj acc, r)
    | ',' :: r => parseStep fuel (PMode.objMember acc) r
    | _ => none

/-- Model of the Python call `json.loads`: parse one JSON value and
require only whitespace to remain; `none` models a raised
`json.JSONDecodeError`. -/
def parseJson (s : String) : Option Json :=
  match parseStep (2 * s.data.length + 8) PMode.val s.data with
  | some (v, rest) => if (skipWs rest).isEmpty then some v else none
  | none => none

example : parseJson "\x7b\"a\":1,\"b\":null\x7d" =
    some (Json.obj [("a", Json.num 1), ("b", Json.null)]) := rfl

example : parseJson "[1, 2]" = some (Json.arr [Json.num 1, Json.num 2]) := rfl

example : parseJson "not json" = none := rfl

example : parseJson " \x7b \"k\" : [true, \"x\"] \x7d " =
    some (Json.obj [("k", Json.arr [Json.bool true, Json.str "x"])]) := rfl

/-! ## `OCR_pass.py`: the `PassportOCRExtractor` pipeline

Images are NumPy arrays: a 2-dimensional array (grayscale) or a
3-dimensional array of `h × w × c` pixels.  Pixel buffers are modelled
as functions from coordinates to intensities. -/

inductive NpImage where
  | gray (h w : Nat) (px : Nat → Nat → Nat) : NpImage
  | color (h w c : Nat) (px : Nat → Nat → Nat → Nat) : NpImage

/-- Number of color channels of an image (a 2-dimensional array is
single-channel). -/
def NpImage.channels : NpImage → Nat
  | .gray _ _ _ => 1
  | .color _ _ c _ => c

/-- Channel intensity accessor; a grayscale image answers its single
intensity for every channel index. -/
def NpImage.pixel : NpImage → Nat → Nat → Nat → Nat
  | .gray _ _ px, i, j, _ => px i j
  | .color _ _ _ px, i, j, k => px i j k

/-- Modelled from the OpenCV documentation of
`cv2.cvtColor(image, cv2.COLOR_GRAY2BGR)`: replicate the single
intensity into all three channels of a 3-channel image. -/
def cvtColorGray2BGR : NpImage → NpImage
  | .gray h w px => .color h w 3 (fun i j _ => px i j)
  | img => img

/-- One OCR result page as the source consumes it: the `rec_texts`
field holds the recognized text strings of the page. -/
structure OcrPage where
  rec_texts : List String

/-- External collaborators of `PassportOCRExtractor`: `os.path.exists`,
`cv2.imread` (which answers `none` when the bytes do not decode) and
the PaddleOCR entry point `self.ocr_model.predict` (whose own failure
is modelled as an error message). -/
structure OcrEnv where
  pathExists : String → Bool
  imread : String → Option NpImage
  predict : NpImage → Except String (List OcrPage)

/-- Errors raised by `PassportOCRExtractor`: `FileNotFoundError` from
`_load_image`, `ValueError` when `cv2.imread` yields nothing, and any
exception escaping the engine call. -/
inductive OcrError where
  | fileNotFound (path : String) : OcrError
  | decodeError : OcrError
  | engineError (msg : String) : OcrError

/-- `PassportOCRExtractor._load_image`: check `os.path.exists`, then
`cv2.imread`, raising on either failure. -/
def load_image (env : OcrEnv) (image_path : String) : Except OcrError NpImage :=
  if env.pathExists image_path = false then
    .error (.fileNotFound image_path)
  else
    match env.imread image_path with
    | none => .error .decodeError
    | some image => .ok image

/-- `PassportOCRExtractor._preprocess_for_ocr`: a 2-dimensional
(grayscale) array is converted with `cv2.COLOR_GRAY2BGR`; everything
else passes through untouched. -/
def preprocess_for_ocr (image : NpImage) : NpImage :=
  match image with
  | .gray h w px => cvtColorGray2BGR (.gray h w px)
  | img => img

/-- The fragment-collecting loop of `extract_text`: for every page,
append each string of `rec_texts` whose `strip()` is non-empty (Python
string truthiness), keeping the string itself verbatim. -/
def extracted_texts : List OcrPage → List String
  | [] => []
  | page :: rest =>
    page.rec_texts.filter (fun text => pyStrip text != "") ++ extracted_texts rest

/-- The final join of `extract_text`: `" ".join(extracted_texts)`. -/
def full_text (results : List OcrPage) : String :=
  String.intercalate " " (extracted_texts results)

/-- `PassportOCRExtractor.extract_text`, instrumented: besides the
returned text (or the raised error), records the image handed to the
engine entry point `predict`, `none` when `predict` was never
invoked. -/
def extractTextRun (env : OcrEnv) (image_path : String) :
    Except OcrError String × Option NpImage :=
  match load_image env image_path with
  | .error e => (.error e, none)
  | .ok image =>
    let image := preprocess_for_ocr image
    match env.predict image with
    | .error msg => (.error (.engineError msg), some image)
    | .ok results => (.ok (full_text results), some image)

/-- `PassportOCRExtractor.extract_text` proper. -/
def extract_text (env : OcrEnv) (image_path : String) : Except OcrError String :=
  (extractTextRun env image_path).1

/-- Contract of `cv2.imread` (from the OpenCV documentation): an image
it decodes is either a 2-dimensional grayscale array or a 3-channel
BGR array. -/
def ImreadOk (env : OcrEnv) : Prop :=
  ∀ p img, env.imread p = some img →
    (∃ h w px, img = NpImage.gray h w px)
    ∨ (∃ h w px, img = NpImage.color h w 3 px)

/-! ## `app.py`: the upload handler -/

/-- Round a rational to the nearest integer, ties to even, as Python
`round` does. -/
def roundHalfEven (q : ℚ) : ℤ :=
  if q - (⌊q⌋ : ℚ) < 1 / 2 then ⌊q⌋
  else if 1 / 2 < q - (⌊q⌋ : ℚ) then ⌊q⌋ + 1
  else if ⌊q⌋ % 2 = 0 then ⌊q⌋ else ⌊q⌋ + 1

/-- Python `round(x, 2)` on the rational model of the arithmetic. -/
def round2 (q : ℚ) : ℚ := (roundHalfEven (q * 100) : ℚ) / 100

/-- The accuracy summary rendered by the handler. -/
structure Metrics where
  total_fields : Nat
  null_fields : Nat
  extracted_fields : Nat
  accuracy_percent : ℚ
deriving DecidableEq

/-- Count of top-level values that are JSON `null`
(`sum(1 for v in passport_data.values() if v is None)`). -/
def nullCount (fields : List (String × Json)) : Nat :=
  (fields.filter (fun kv => match kv.2 with | Json.null => true | _ => false)).length

/-- Failures of the accuracy block (lines 130 to 133 of `app.py`):
`len`/`.values()` on a non-`dict` raises (`TypeError` or
`AttributeError`), and `extracted_fields / total_fields` raises
`ZeroDivisionError` on an empty `dict`. -/
inductive ScoreError where
  | typeError : ScoreError
  | divByZero : ScoreError
deriving DecidableEq

/-- The accuracy computation of the handler, as fallible code: Python
evaluates `len(passport_data)` and `passport_data.values()` (raising on
a non-`dict`), then `total - null`, then
`round((extracted / total) * 100, 2)` (raising when `total = 0`). -/
def scoreE : Json → Except ScoreError Metrics
  | .obj fields =>
    let total_fields := fields.length
    let null_fields := nullCount fields
    if total_fields = 0 then .error .divByZero
    else
      let extracted_fields := total_fields - null_fields
      let accuracy := round2 ((extracted_fields : ℚ) / (total_fields : ℚ) * 100)
      .ok ⟨total_fields, null_fields, extracted_fields, accuracy⟩
  | _ => .error .typeError

/-- Post-processing of the LLM completion (lines 122 to 125 of
`app.py`): strip, and when the stripped text starts with a fence
marker, drop every occurrence of the two marker strings and strip
again. -/
def postProcess (content : String) : String :=
  if strStarts "```" (pyStrip content) then
    pyStrip (removeOccs "```" (removeOccs "```json" (pyStrip content)))
  else pyStrip content

/-- The fixed prompt of the handler, up to the embedded OCR text. -/
def promptPrefix : String :=
  "\nYou are a specialized Indian Passport Data Extraction agent.\n\n" ++
  "Return ONLY valid JSON.\nUse MRZ as ground truth.\n" ++
  "Use null for missing fields.\nFormat dates as YYYY-MM-DD.\n\n" ++
  "JSON SCHEMA:\n\x7b\n" ++
  "  \"country\": \"INDIA\",\n  \"passport_type\": \"P\",\n" ++
  "  \"nationality\": \"INDIAN\",\n  \"passport_number\": \"Verify against MRZ\",\n" ++
  "  \"surname\": \"From VIZ\",\n  \"given_names\": \"From VIZ\",\n" ++
  "  \"date_of_birth\": \"YYYY-MM-DD\",\n  \"sex\": \"M/F\",\n" ++
  "  \"place_of_birth\": null,\n  \"place_of_issue\": null,\n" ++
  "  \"date_of_issue\": \"YYYY-MM-DD\",\n  \"date_of_expiry\": \"YYYY-MM-DD\",\n" ++
  "  \"father_name\": null,\n  \"mother_name\": null,\n" ++
  "  \"spouse_name\": null,\n  \"address\": null,\n" ++
  "  \"pin_code\": null,\n  \"file_number\": null,\n" ++
  "  \"holder_signature_present\": true/false\n\x7d\n\nOCR TEXT:\n\"\"\""

/-- The prompt the handler sends to the LLM, with the OCR text embedded
as a delimited literal block. -/
def buildPrompt (passport_text : String) : String :=
  promptPrefix ++ passport_text ++ "\"\"\"\n"

/-- An uploaded file as the handler sees it. -/
structure UploadedFile where
  filename : String
  content : String

/-- An HTTP request to the single route: its method, and the `file`
field of the multipart form data when one was supplied. -/
structure Request where
  method : String
  file : Option UploadedFile

/-- External collaborators of the handler: the OCR extractor
environment, the LLM client (`model.invoke(prompt).content`) and the
random identifier used for the temporary path (`uuid.uuid4()`). -/
structure Env where
  ocrEnv : OcrEnv
  llm : String → String
  uuid : String

/-- The temporary upload path chosen by the handler. -/
def temp_path (env : Env) (file : UploadedFile) : String :=
  "/tmp/" ++ env.uuid ++ "_" ++ file.filename

/-- Uncaught exceptions escaping the POST branch. -/
inductive HandlerError where
  | ocrFail (e : OcrError) : HandlerError
  | jsonDecodeFail : HandlerError
  | scoreFail (e : ScoreError) : HandlerError

/-- The fully rendered result section of the response page. -/
structure Rendered where
  extracted_text : String
  passport_data : Json
  metrics : Metrics

/-- The handler outcome: a rendered page (with the result section
present on success, absent on GET), a 400 plain-text response, or an
uncaught error surfaced by the server. -/
inductive Response where
  | page (result : Option Rendered) : Response
  | badRequest (msg : String) : Response
  | serverError (e : HandlerError) : Response

/-- HTTP status class of a response. -/
def statusOf : Response → Nat
  | .page _ => 200
  | .badRequest _ => 400
  | .serverError _ => 500

/-- Observable side effects of one request: whether the temporary file
was written, whether it still exists after the request, the image the
engine entry point received (if any), the number of LLM invocations,
and whether the OCR extractor was called. -/
structure Trace where
  tempWritten : Bool
  tempExistsAfter : Bool
  predictArg : Option NpImage
  llmCalls : Nat
  ocrCalled : Bool

/-- The `finally` block of the handler: `if os.path.exists(temp_path):
os.remove(temp_path)`, acting on the existence state of the temporary
file. -/
def finallyCleanup (tempExists : Bool) : Bool :=
  if tempExists then false else tempExists

/-- The route handler `upload_and_extract` of `app.py`, paired with the
trace of its side effects.  On POST with a file: save the upload to the
temporary path, run OCR, build the prompt, invoke the LLM once,
post-process and parse its output, compute the accuracy block, render
the page; any failure propagates, and the `finally` block removes the
temporary file on every path out of the `try`. -/
def upload_and_extract (env : Env) (req : Request) : Response × Trace :=
  if req.method = "POST" then
    match req.file with
    | none => (.badRequest "No file uploaded", ⟨false, false, none, 0, false⟩)
    | some file =>
      let tp := temp_path env file
      let tempExists := true
      match extractTextRun env.ocrEnv tp with
      | (.error e, parg) =>
        (.serverError (.ocrFail e),
         ⟨true, finallyCleanup tempExists, parg, 0, true⟩)
      | (.ok passport_text, parg) =>
        let prompt := buildPrompt passport_text
        let raw_output := postProcess (env.llm prompt)
        match parseJson raw_output with
        | none =>
          (.serverError .jsonDecodeFail,
           ⟨true, finallyCleanup tempExists, parg, 1, true⟩)
        | some passport_data =>
          match scoreE passport_data with
          | .error e =>
            (.serverError (.scoreFail e),
             ⟨true, finallyCleanup tempExists, parg, 1, true⟩)
          | .ok m =>
            (.page (some ⟨passport_text, passport_data, m⟩),
             ⟨true, finallyCleanup tempExists, parg, 1, true⟩)
  else (.page none, ⟨false, false, none, 0, false⟩)

/-! ## Concrete collaborators and data used by the witnesses -/

/-- A 19-key object matching the prompt schema, with 5 null values. -/
def sampleFields : List (String × Json) :=
  [("country", Json.str "INDIA"), ("passport_type", Json.str "P"),
   ("nationality", Json.str "INDIAN"), ("passport_number", Json.str "A1234567"),
   ("surname", Json.str "KUMAR"), ("given_names", Json.str "RAHUL"),
   ("date_of_birth", Json.str "1990-01-01"), ("sex", Json.str "M"),
   ("place_of_birth", Json.null), ("place_of_issue", Json.null),
   ("date_of_issue", Json.str "2015-01-01"), ("date_of_expiry", Json.str "2025-01-01"),
   ("father_name", Json.null), ("mother_name", Json.null),
   ("spouse_name", Json.null), ("address", Json.str "DELHI"),
   ("pin_code", Json.str "110001"), ("file_number", Json.str "F1"),
   ("holder_signature_present", Json.bool true)]

/-- A decoded 3-channel test image. -/
def sampleImage : NpImage := NpImage.color 2 2 3 (fun _ _ _ => 7)

/-- An OCR environment whose collaborators all succeed. -/
def ocrEnvOk : OcrEnv :=
  ⟨fun _ => true, fun _ => some sampleImage, fun _ => .ok [⟨["P<INDIND"]⟩]⟩

/-- An OCR environment whose filesystem has no files. -/
def ocrEnvMissing : OcrEnv := ⟨fun _ => false, fun _ => none, fun _ => .ok []⟩

/-- An OCR environment where every file exists but none decodes. -/
def ocrEnvBadBytes : OcrEnv := ⟨fun _ => true, fun _ => none, fun _ => .ok []⟩

/-- A handler environment whose LLM answers with text that is not JSON. -/
def envBadLlm : Env := ⟨ocrEnvOk, fun _ => "not json", "u"⟩

/-- A handler environment whose LLM answers with a JSON array. -/
def envArrLlm : Env := ⟨ocrEnvOk, fun _ => "[1, 2]", "u"⟩

/-- A handler environment whose LLM answers with a well-formed object. -/
def envGoodLlm : Env :=
  ⟨ocrEnvOk, fun _ => "\x7b\"a\":1,\"b\":null\x7d", "u"⟩

/-- A concrete POST request carrying a file. -/
def samplePost : Request := ⟨"POST", some ⟨"img.png", "bytes"⟩⟩

/-! ## Claim theorems -/

/-- C1: for every JSON object handed to the accuracy block, the handler
computes `extracted_fields = total_fields - null_fields` and
`accuracy_percent = round(100 * extracted_fields / total_fields, 2)`
over the top-level keys, and in particular a 19-key object with 5 nulls
yields total 19, nulls 5, extracted 14 and 73.68 percent. -/
theorem C1_accuracy_formula (fields : List (String × Json))
    (hne : fields.length ≠ 0) :
    scoreE (Json.obj fields) =
      Except.ok ⟨fields.length, nullCount fields,
        fields.length - nullCount fields,
        round2 (((fields.length - nullCount fields : Nat) : ℚ) /
          (fields.length : ℚ) * 100)⟩
    ∧ (fields.length = 19 → nullCount fields = 5 →
        scoreE (Json.obj fields) = Except.ok ⟨19, 5, 14, 7368 / 100⟩) := by
  constructor
  · simp [scoreE, hne]
  · intro h19 h5
    have hr : round2 ((1400 : ℚ) / 19) = 1842 / 25 := by
      have h1 : ((1400 : ℚ) / 19) * 100 = 140000 / 19 := by
        norm_num
      have hfloor : ⌊(140000 : ℚ) / 19⌋ = 7368 := by
        rw [Int.floor_eq_iff]
        constructor <;> norm_num
      have hlt : (140000 : ℚ) / 19 - ((7368 : ℤ) : ℚ) < 1 / 2 := by norm_num
      rw [round2, h1, roundHalfEven, hfloor, if_pos hlt]
      norm_num
    simp only [scoreE, h19, h5]
    norm_num [hr]

/-- C1 witness: the sample 19-key object with 5 nulls evaluates to the
claimed metrics. -/
theorem C1_accuracy_formula_witness :
    scoreE (Json.obj sampleFields) = Except.ok ⟨19, 5, 14, 7368 / 100⟩ :=
  (C1_accuracy_formula sampleFields (by decide)).2 (by decide) (by decide)

/-- C2: on every POST request carrying a file, the temporary upload
file no longer exists once the request completes, whatever the OCR,
LLM, parse and scoring outcomes were. -/
theorem C2_temp_cleanup (env : Env) (req : Request) (f : UploadedFile)
    (hpost : req.method = "POST") (hfile : req.file = some f) :
    (upload_and_extract env req).2.tempExistsAfter = false := by
  unfold upload_and_extract
  rw [hpost, hfile]
  simp only [if_pos rfl]
  rcases hE : extractTextRun env.ocrEnv (temp_path env f) with ⟨res, parg⟩
  rcases res with e | text
  · simp [finallyCleanup]
  · rcases hP : parseJson (postProcess (env.llm (buildPrompt text))) with _ | v
    · simp [hP, finallyCleanup]
    · rcases hS : scoreE v with e | m <;> simp [hP, hS, finallyCleanup]

/-- C2 witness: a concrete POST upload leaves no temporary file. -/
theorem C2_temp_cleanup_witness :
    (upload_and_extract envGoodLlm samplePost).2.tempExistsAfter = false :=
  C2_temp_cleanup envGoodLlm samplePost ⟨"img.png", "bytes"⟩ rfl rfl

/-- C3 counterexample: the adapter keeps the fragment "B  " verbatim,
so joining the fragments A, empty, "B  ", C produces "A B   C" and not
the claimed "A B C". -/
theorem C3_counterexample :
    full_text [⟨["A", "", "B  ", "C"]⟩] = "A B   C"
    ∧ full_text [⟨["A", "", "B  ", "C"]⟩] ≠ "A B C" := by
  constructor
  · rfl
  · decide

/-- C3 (amended): the adapter keeps every fragment with non-whitespace
content verbatim, drops empty and whitespace-only fragments, preserves
order, and joins the kept fragments with a single space; joining the
fragments A, empty, "B  ", C yields "A B   C" (the kept fragment "B  "
retains its trailing spaces). -/
theorem C3_join_fragments (results : List OcrPage) :
    full_text results =
      String.intercalate " "
        (((results.map OcrPage.rec_texts).flatten).filter
          (fun t => pyStrip t != ""))
    ∧ full_text [⟨["A", "", "B  ", "C"]⟩] = "A B   C" := by
  constructor
  · unfold full_text
    congr 1
    induction results with
    | nil => rfl
    | cons page rest ih =>
      simp [extracted_texts, ih]
  · rfl

/-- C5: whenever the extractor passes an image to the OCR engine entry
point, that image has exactly 3 channels (given that `cv2.imread`
yields a grayscale or 3-channel BGR array), and preprocessing maps any
grayscale image to a 3-channel image whose three channels all equal the
original intensity at every pixel. -/
theorem C5_three_channel (env : OcrEnv) (path : String) (img : NpImage)
    (hok : ImreadOk env)
    (hrun : (extractTextRun env path).2 = some img) :
    img.channels = 3
    ∧ (∀ h w px, (preprocess_for_ocr (NpImage.gray h w px)).channels = 3
        ∧ ∀ i j k, (preprocess_for_ocr (NpImage.gray h w px)).pixel i j k = px i j) := by
  constructor
  · unfold extractTextRun load_image at hrun
    rcases hpe : env.pathExists path with _ | _
    · simp [hpe] at hrun
    · rcases him : env.imread path with _ | image0
      · simp [hpe, him] at hrun
      · rw [hpe, him] at hrun
        simp only [Bool.true_eq_false, if_false, reduceIte] at hrun
        rcases hpr : env.predict (preprocess_for_ocr image0) with msg | results <;>
          rw [hpr] at hrun <;>
          simp only [Option.some.injEq] at hrun <;>
          rw [← hrun] <;>
          rcases hok path image0 him with ⟨h, w, px, rfl⟩ | ⟨h, w, px, rfl⟩ <;>
          simp [preprocess_for_ocr, cvtColorGray2BGR, NpImage.channels]
  · intro h w px
    exact ⟨rfl, fun i j k => rfl⟩

/-- C5 witness: with a concrete 3-channel environment, the image handed
to the engine has 3 channels. -/
theorem C5_three_channel_witness :
    sampleImage.channels = 3
    ∧ (∀ h w px, (preprocess_for_ocr (NpImage.gray h w px)).channels = 3
        ∧ ∀ i j k, (preprocess_for_ocr (NpImage.gray h w px)).pixel i j k = px i j) :=
  C5_three_channel ocrEnvOk "p.png" sampleImage
    (fun _ _ h => Or.inr ⟨2, 2, fun _ _ _ => 7, (Option.some.inj h).symm⟩)
    rfl

/-- C6: the loader raises `FileNotFoundError` when the path does not
exist and `ValueError` when the bytes do not decode, and in both cases
the engine entry point is never invoked. -/
theorem C6_loader_failures (env : OcrEnv) (path : String) :
    (env.pathExists path = false →
      extractTextRun env path = (Except.error (OcrError.fileNotFound path), none))
    ∧ (env.pathExists path = true → env.imread path = none →
      extractTextRun env path = (Except.error OcrError.decodeError, none)) := by
  constructor
  · intro h
    simp [extractTextRun, load_image, h]
  · intro h1 h2
    simp [extractTextRun, load_image, h1, h2]

/-- C6 witness: concrete missing-path and bad-bytes environments fail
with the two errors without invoking the engine. -/
theorem C6_loader_failures_witness :
    extractTextRun ocrEnvMissing "a.png"
      = (Except.error (OcrError.fileNotFound "a.png"), none)
    ∧ extractTextRun ocrEnvBadBytes "b.png"
      = (Except.error OcrError.decodeError, none) :=
  ⟨(C6_loader_failures ocrEnvMissing "a.png").1 rfl,
   (C6_loader_failures ocrEnvBadBytes "b.png").2 rfl rfl⟩

/-- C7: a POST whose form data has no file field gets the plain-text
400 response, and the handler performs no OCR call, no LLM call and no
temporary-file write. -/
theorem C7_no_file_400 (env : Env) (req : Request)
    (hpost : req.method = "POST") (hfile : req.file = none) :
    upload_and_extract env req =
      (Response.badRequest "No file uploaded", ⟨false, false, none, 0, false⟩)
    ∧ statusOf (upload_and_extract env req).1 = 400 := by
  have h : upload_and_extract env req =
      (Response.badRequest "No file uploaded", ⟨false, false, none, 0, false⟩) := by
    unfold upload_and_extract
    rw [hpost, hfile]
    simp
  exact ⟨h, by rw [h]; rfl⟩

/-- C7 witness: a concrete POST with no file field. -/
theorem C7_no_file_400_witness :
    upload_and_extract envGoodLlm ⟨"POST", none⟩ =
      (Response.badRequest "No file uploaded", ⟨false, false, none, 0, false⟩)
    ∧ statusOf (upload_and_extract envGoodLlm ⟨"POST", none⟩).1 = 400 :=
  C7_no_file_400 envGoodLlm ⟨"POST", none⟩ rfl rfl

/-- C8: when the post-processed LLM completion is not valid JSON, the
request fails with the JSON decode error surfaced as-is, the LLM was
invoked exactly once, and no result page is rendered. -/
theorem C8_parse_failure (env : Env) (req : Request) (f : UploadedFile)
    (text : String)
    (hpost : req.method = "POST") (hfile : req.file = some f)
    (hocr : extract_text env.ocrEnv (temp_path env f) = Except.ok text)
    (hparse : parseJson (postProcess (env.llm (buildPrompt text))) = none) :
    (upload_and_extract env req).1 = Response.serverError HandlerError.jsonDecodeFail
    ∧ (upload_and_extract env req).2.llmCalls = 1 := by
  unfold upload_and_extract
  rw [hpost, hfile]
  simp only [if_pos rfl]
  rcases hE : extractTextRun env.ocrEnv (temp_path env f) with ⟨res, parg⟩
  have hres : res = Except.ok text := by
    rw [extract_text, hE] at hocr
    exact hocr
  subst hres
  simp [hparse]

/-- C8 witness: a concrete pipeline whose LLM answers "not json" fails
with the decode error after exactly one LLM call. -/
theorem C8_parse_failure_witness :
    (upload_and_extract envBadLlm samplePost).1
      = Response.serverError HandlerError.jsonDecodeFail
    ∧ (upload_and_extract envBadLlm samplePost).2.llmCalls = 1 :=
  C8_parse_failure envBadLlm samplePost ⟨"img.png", "bytes"⟩ "P<INDIND"
    rfl rfl rfl rfl

/-- C9 counterexample: the empty JSON object parses successfully, and
the scoring step then fails with a division by zero instead of
computing metrics. -/
theorem C9_counterexample :
    parseJson "\x7b\x7d" = some (Json.obj [])
    ∧ scoreE (Json.obj []) = Except.error ScoreError.divByZero :=
  ⟨rfl, rfl⟩

/-- C9 (amended): for every JSON object with at least one top-level
key, the scoring step computes AccuracyMetrics over however many keys
the object has; for the empty object the division in
`accuracy_percent` raises `ZeroDivisionError`. -/
theorem C9_nonempty_scoring (fields : List (String × Json))
    (hne : fields.length ≠ 0) :
    (∃ m : Metrics, scoreE (Json.obj fields) = Except.ok m)
    ∧ scoreE (Json.obj []) = Except.error ScoreError.divByZero := by
  constructor
  · exact ⟨⟨fields.length, nullCount fields, fields.length - nullCount fields,
      round2 (((fields.length - nullCount fields : Nat) : ℚ) /
        ((fields.length : Nat) : ℚ) * 100)⟩, by simp [scoreE, hne]⟩
  · rfl

/-- C9 witness: a one-key object is scored successfully. -/
theorem C9_nonempty_scoring_witness :
    (∃ m : Metrics, scoreE (Json.obj [("a", Json.num 1)]) = Except.ok m)
    ∧ scoreE (Json.obj []) = Except.error ScoreError.divByZero :=
  C9_nonempty_scoring [("a", Json.num 1)] (by decide)

/-- C10: when the post-processed LLM completion is valid JSON whose
top-level value is not an object, parsing succeeds and the request
instead fails afterwards in the scoring step (which assumes a `dict`),
not with a JSON decode error. -/
theorem C10_nonobject_scoring (env : Env) (req : Request) (f : UploadedFile)
    (text : String) (v : Json)
    (hpost : req.method = "POST") (hfile : req.file = some f)
    (hocr : extract_text env.ocrEnv (temp_path env f) = Except.ok text)
    (hparse : parseJson (postProcess (env.llm (buildPrompt text))) = some v)
    (hnobj : v.isObj = false) :
    (upload_and_extract env req).1
      = Response.serverError (HandlerError.scoreFail ScoreError.typeError)
    ∧ (upload_and_extract env req).1 ≠ Response.serverError HandlerError.jsonDecodeFail := by
  have hscore : scoreE v = Except.error ScoreError.typeError := by
    cases v <;> simp [Json.isObj] at hnobj <;> rfl
  unfold upload_and_extract
  rw [hpost, hfile]
  simp only [if_pos rfl]
  rcases hE : extractTextRun env.ocrEnv (temp_path env f) with ⟨res, parg⟩
  have hres : res = Except.ok text := by
    rw [extract_text, hE] at hocr
    exact hocr
  subst hres
  simp [hparse, hscore]

/-- C10 witness: an LLM answering the JSON array "[1, 2]" makes the
request fail in the scoring step, not at parsing. -/
theorem C10_nonobject_scoring_witness :
    (upload_and_extract envArrLlm samplePost).1
      = Response.serverError (HandlerError.scoreFail ScoreError.typeError)
    ∧ (upload_and_extract envArrLlm samplePost).1
      ≠ Response.serverError HandlerError.jsonDecodeFail :=
  C10_nonobject_scoring envArrLlm samplePost ⟨"img.png", "bytes"⟩ "P<INDIND"
    (Json.arr [Json.num 1, Json.num 2]) rfl rfl rfl rfl rfl

/-! ## Helper lemmas for the fence-stripping analysis (C4) -/

/-- A single unfolding step of the replace worker at a matching
position. -/
theorem removeOccsAux_step (p : Char) (ps : List Char) (fuel : Nat)
    (c : Char) (rest : List Char)
    (hp : (p :: ps).isPrefixOf (c :: rest) = true) :
    removeOccsAux p ps (fuel + 1) (c :: rest)
      = removeOccsAux p ps fuel (rest.drop ps.length) := by
  simp [removeOccsAux, hp]

/-- With fuel at least the length of the input, the replace worker is
independent of the exact fuel. -/
theorem removeOccsAux_fuel (p : Char) (ps : List Char) :
    ∀ fuel s, List.length s ≤ fuel →
      removeOccsAux p ps fuel s = removeOccsAux p ps s.length s := by
  intro fuel
  induction fuel using Nat.strong_induction_on with
  | _ fuel ih =>
    intro s hs
    rcases s with _ | ⟨c, rest⟩
    · cases fuel <;> rfl
    · rcases fuel with _ | f
      · simp at hs
      · have hs' : rest.length ≤ f := by simpa using hs
        have hlen : (c :: rest).length = rest.length + 1 := rfl
        rw [hlen]
        by_cases hp : (p :: ps).isPrefixOf (c :: rest) = true
        · rw [removeOccsAux_step p ps f c rest hp,
            removeOccsAux_step p ps rest.length c rest hp]
          have hd : (rest.drop ps.length).length ≤ rest.length := by
            simp [List.length_drop]
          rw [ih f (Nat.lt_succ_self f) _ (le_trans hd hs'),
            ih rest.length (Nat.lt_succ_of_le hs') _ hd]
        · have hp' : ((p :: ps).isPrefixOf (c :: rest)) = false :=
            Bool.not_eq_true _ ▸ Bool.of_not_eq_true hp
          simp only [removeOccsAux, hp', Bool.false_eq_true, if_false]
          rw [ih f (Nat.lt_succ_self f) rest hs']

/-- The replace worker leaves a block of characters different from the
pattern head untouched and continues past it. -/
theorem removeOccsAux_append (p : Char) (ps xs ys : List Char)
    (hx : ∀ c ∈ xs, ¬ c = p) :
    removeOccsAux p ps (xs ++ ys).length (xs ++ ys)
      = xs ++ removeOccsAux p ps ys.length ys := by
  induction xs with
  | nil => simp
  | cons x xs ih =>
    have hxp : (p == x) = false := by
      have hx0 : ¬ x = p := hx x (List.mem_cons_self x xs)
      exact beq_eq_false_iff_ne.mpr fun h => hx0 h.symm
    have hpre : (p :: ps).isPrefixOf (x :: (xs ++ ys)) = false := by
      simp [List.isPrefixOf_cons₂, hxp]
    simp only [List.cons_append, List.length_cons, removeOccsAux, List.append_eq,
      hpre, Bool.false_eq_true, if_false]
    exact congrArg (x :: ·) (ih fun c hc => hx c (List.mem_cons_of_mem _ hc))

/-- Stripping leaves a list untouched when it starts and ends with a
non-whitespace character. -/
theorem stripChars_nosp (a b : Char) (mid : List Char)
    (ha : isPySpace a = false) (hb : isPySpace b = false) :
    stripChars (a :: (mid ++ [b])) = a :: (mid ++ [b]) := by
  unfold stripChars
  rw [List.dropWhile_cons, if_neg (by simp [ha])]
  have hrev : (a :: (mid ++ [b])).reverse = b :: (mid.reverse ++ [a]) := by
    simp
  rw [hrev, List.dropWhile_cons, if_neg (by simp [hb]), ← hrev,
    List.reverse_reverse]

/-- Stripping a body wrapped in single newlines equals stripping the
body. -/
theorem stripChars_wrap (bl : List Char) :
    stripChars ('\n' :: (bl ++ ['\n'])) = stripChars bl := by
  unfold stripChars
  rw [List.dropWhile_cons, if_pos (by decide), List.dropWhile_append]
  by_cases hbl : (bl.dropWhile isPySpace).isEmpty = true
  · rw [if_pos hbl]
    have hbl' : bl.dropWhile isPySpace = [] := by
      simpa using hbl
    rw [hbl']
    rfl
  · rw [if_neg hbl]
    have hrev : (bl.dropWhile isPySpace ++ ['\n']).reverse
        = '\n' :: (bl.dropWhile isPySpace).reverse := by
      simp
    rw [hrev, List.dropWhile_cons, if_pos (by decide)]

/-- Removing the pattern "```json" from the full fenced wrapping of a
backtick-free body removes exactly the leading marker. -/
theorem removeJson_wrap (bl : List Char) (hnb : ∀ c ∈ bl, ¬ c = '\x60') :
    removeOccsAux '\x60' ['\x60', '\x60', 'j', 's', 'o', 'n']
      ('\x60' :: '\x60' :: '\x60' :: 'j' :: 's' :: 'o' :: 'n' :: '\n' ::
        (bl ++ ['\n', '\x60', '\x60', '\x60'])).length
      ('\x60' :: '\x60' :: '\x60' :: 'j' :: 's' :: 'o' :: 'n' :: '\n' ::
        (bl ++ ['\n', '\x60', '\x60', '\x60']))
      = '\n' :: (bl ++ ['\n', '\x60', '\x60', '\x60']) := by
  have hlen : ('\x60' :: '\x60' :: '\x60' :: 'j' :: 's' :: 'o' :: 'n' :: '\n' ::
      (bl ++ ['\n', '\x60', '\x60', '\x60'])).length
      = (('\n' :: (bl ++ ['\n', '\x60', '\x60', '\x60'])).length + 6) + 1 := by
    simp [List.length_append]
  rw [hlen, removeOccsAux_step _ _ _ _ _ (by simp [List.isPrefixOf_cons₂])]
  have hdrop : ('\x60' :: '\x60' :: 'j' :: 's' :: 'o' :: 'n' :: '\n' ::
      (bl ++ ['\n', '\x60', '\x60', '\x60'])).drop
        (List.length ['\x60', '\x60', 'j', 's', 'o', 'n'])
      = '\n' :: (bl ++ ['\n', '\x60', '\x60', '\x60']) := rfl
  rw [hdrop, removeOccsAux_fuel _ _ _ _ (by simp)]
  have hsplit : ('\n' :: (bl ++ ['\n', '\x60', '\x60', '\x60']))
      = ('\n' :: bl) ++ ['\n', '\x60', '\x60', '\x60'] := by simp
  rw [hsplit, removeOccsAux_append _ _ _ _
    (by
      intro c hc
      rcases List.mem_cons.mp hc with h | h
      · subst h; decide
      · exact hnb c h)]
  rfl

/-- Removing the pattern "```" from the remainder removes exactly the
trailing marker. -/
theorem removeTicks_wrap (bl : List Char) (hnb : ∀ c ∈ bl, ¬ c = '\x60') :
    removeOccsAux '\x60' ['\x60', '\x60']
      ('\n' :: (bl ++ ['\n', '\x60', '\x60', '\x60'])).length
      ('\n' :: (bl ++ ['\n', '\x60', '\x60', '\x60']))
      = '\n' :: (bl ++ ['\n']) := by
  have hsplit : ('\n' :: (bl ++ ['\n', '\x60', '\x60', '\x60']))
      = ('\n' :: bl) ++ ['\n', '\x60', '\x60', '\x60'] := by simp
  rw [hsplit, removeOccsAux_append _ _ _ _
    (by
      intro c hc
      rcases List.mem_cons.mp hc with h | h
      · subst h; decide
      · exact hnb c h)]
  have h4 : removeOccsAux '\x60' ['\x60', '\x60']
      (List.length ['\n', '\x60', '\x60', '\x60'])
      ['\n', '\x60', '\x60', '\x60'] = ['\n'] := by decide
  rw [h4]
  simp

/-- C4 counterexample: for a fenced response whose body itself contains
a fence marker inside a JSON string, post-processing removes the inner
marker as well, so the result differs from the response with only the
leading and trailing markers removed, and the parsed object has mutated
content. -/
theorem C4_counterexample :
    postProcess "```json\n\x7b\"a\":\"b```c\"\x7d\n```" = "\x7b\"a\":\"bc\"\x7d"
    ∧ postProcess "```json\n\x7b\"a\":\"b```c\"\x7d\n```" ≠ "\x7b\"a\":\"b```c\"\x7d"
    ∧ parseJson (postProcess "```json\n\x7b\"a\":\"b```c\"\x7d\n```")
        = some (Json.obj [("a", Json.str "bc")]) :=
  ⟨rfl, by decide, rfl⟩

/-- C4 (amended): post-processing trims surrounding whitespace and,
when the response starts with a fence marker, removes every occurrence
of the marker strings anywhere in the response and trims again; hence
for a fenced response whose body contains no backtick, exactly the
leading marker with its json tag and the trailing marker are removed,
and the fenced example parses to the object with a = 1 and b = null. -/
theorem C4_fence_stripping (body : String)
    (hnb : ∀ c ∈ body.data, ¬ c = '\x60') :
    postProcess ("```json\n" ++ body ++ "\n```") = pyStrip body
    ∧ parseJson (postProcess "```json\n\x7b\"a\":1,\"b\":null\x7d\n```")
        = some (Json.obj [("a", Json.num 1), ("b", Json.null)]) := by
  constructor
  · obtain ⟨bl⟩ := body
    have hnb' : ∀ c ∈ bl, ¬ c = '\x60' := hnb
    have hS : ("```json\n" ++ String.mk bl ++ "\n```")
        = String.mk ('\x60' :: '\x60' :: '\x60' :: 'j' :: 's' :: 'o' :: 'n' :: '\n' ::
            (bl ++ ['\n', '\x60', '\x60', '\x60'])) := rfl
    rw [hS]
    have hshape : ('\x60' :: '\x60' :: '\x60' :: 'j' :: 's' :: 'o' :: 'n' :: '\n' ::
        (bl ++ ['\n', '\x60', '\x60', '\x60']))
        = '\x60' :: (('\x60' :: '\x60' :: 'j' :: 's' :: 'o' :: 'n' :: '\n' ::
            (bl ++ ['\n', '\x60', '\x60'])) ++ ['\x60']) := by
      simp
    have hstrip : pyStrip (String.mk ('\x60' :: '\x60' :: '\x60' :: 'j' :: 's' :: 'o' :: 'n' :: '\n' ::
        (bl ++ ['\n', '\x60', '\x60', '\x60'])))
        = String.mk ('\x60' :: '\x60' :: '\x60' :: 'j' :: 's' :: 'o' :: 'n' :: '\n' ::
            (bl ++ ['\n', '\x60', '\x60', '\x60'])) := by
      refine congrArg String.mk ?_
      rw [hshape]
      exact stripChars_nosp _ _ _ (by decide) (by decide)
    have hstart : strStarts "```" (String.mk ('\x60' :: '\x60' :: '\x60' :: 'j' :: 's' :: 'o' :: 'n' :: '\n' ::
        (bl ++ ['\n', '\x60', '\x60', '\x60']))) = true := rfl
    rw [postProcess, hstrip, if_pos hstart]
    have h1 : removeOccs "```json" (String.mk ('\x60' :: '\x60' :: '\x60' :: 'j' :: 's' :: 'o' :: 'n' :: '\n' ::
        (bl ++ ['\n', '\x60', '\x60', '\x60'])))
        = String.mk ('\n' :: (bl ++ ['\n', '\x60', '\x60', '\x60'])) :=
      congrArg String.mk (removeJson_wrap bl hnb')
    rw [h1]
    have h2 : removeOccs "```" (String.mk ('\n' :: (bl ++ ['\n', '\x60', '\x60', '\x60'])))
        = String.mk ('\n' :: (bl ++ ['\n'])) :=
      congrArg String.mk (removeTicks_wrap bl hnb')
    rw [h2]
    exact congrArg String.mk (stripChars_wrap bl)
  · rfl

/-- C4 witness: for the body with no backtick consisting of the object
text itself, exactly the markers are removed. -/
theorem C4_fence_stripping_witness :
    postProcess ("```json\n" ++ "\x7b\"a\":1,\"b\":null\x7d" ++ "\n```")
      = pyStrip "\x7b\"a\":1,\"b\":null\x7d"
    ∧ parseJson (postProcess "```json\n\x7b\"a\":1,\"b\":null\x7d\n```")
        = some (Json.obj [("a", Json.num 1), ("b", Json.null)]) :=
  C4_fence_stripping "\x7b\"a\":1,\"b\":null\x7d" (by decide)
